import Mathlib

/-!
# Championship points & standings reconstruction engine — verification

Shallow embedding of the points-calculation and standings-reconstruction
logic of `src/f1_webapp/api/app.py` (endpoints `get_complete_standings`
and `get_driver_profile`).  Python dicts whose keys are finishing
positions are embedded as association lists `List (Int × ℚ)` with a
`dictGet` lookup that mirrors `dict.get(position, 0)`; nullable DB
columns are embedded as `Option`; points are ℚ (half-points races
produce the non-integer 12.5).
-/

namespace F1

/-- Session kinds occurring in the `race_sessions.session_type` column;
`sprint` stands for the string `'Sprint Race'`. -/
inductive SessionKind
  | race
  | sprint
  | qualifying
deriving DecidableEq, Repr

/-- One row of the joined `session_results` query used by
`get_complete_standings` (driver path): driver/team ids, round metadata,
session type, nullable finishing position and the fastest-lap flag. -/
structure ResultRow where
  driverId : Int
  teamId : Int
  roundNumber : Int
  eventName : String
  country : String
  sessionKind : SessionKind
  position : Option Int
  fastestLap : Bool
deriving DecidableEq, Repr

/-- Lookup of an integer key in a position→points dict; a missing key
yields 0. -/
def dictLookup : List (Int × ℚ) → Int → ℚ
  | [], _ => 0
  | (k, v) :: rest, p => if k = p then v else dictLookup rest p

/-- Embedding of Python `table.get(position, 0)` on a position→points
dict: `none` (Python `None`) is never a key, a missing key yields 0. -/
def dictGet (d : List (Int × ℚ)) : Option Int → ℚ
  | none => 0
  | some p => dictLookup d p

/-- `get_points_system(year)` from `app.py` (identical copies at the
driver-profile and complete-standings sites): the year-banded race
points table. -/
def get_points_system (year : Int) : List (Int × ℚ) :=
  if year ≥ 2010 then
    [(1, 25), (2, 18), (3, 15), (4, 12), (5, 10), (6, 8), (7, 6), (8, 4), (9, 2), (10, 1)]
  else if year ≥ 2003 then
    [(1, 10), (2, 8), (3, 6), (4, 5), (5, 4), (6, 3), (7, 2), (8, 1)]
  else if year ≥ 1991 then
    [(1, 10), (2, 6), (3, 4), (4, 3), (5, 2), (6, 1)]
  else if year ≥ 1961 then
    [(1, 9), (2, 6), (3, 4), (4, 3), (5, 2), (6, 1)]
  else if year = 1960 then
    [(1, 8), (2, 6), (3, 4), (4, 3), (5, 2), (6, 1)]
  else
    [(1, 8), (2, 6), (3, 4), (4, 3), (5, 2)]

/-- `get_sprint_points_system(year)` from `app.py`: empty before 2021. -/
def get_sprint_points_system (year : Int) : List (Int × ℚ) :=
  if year ≥ 2021 then
    [(1, 8), (2, 7), (3, 6), (4, 5), (5, 4), (6, 3), (7, 2), (8, 1)]
  else
    []

/-- `has_fastest_lap_point(year)` from `app.py`. -/
def has_fastest_lap_point (year : Int) : Bool :=
  decide (year ≤ 1959) || decide (year ≥ 2019)

/-- The `half_points_races` dict literal inside `is_half_points_race`,
read at `year` via `.get(year, [])`. -/
def half_points_races (year : Int) : List Int :=
  if year = 1984 then [6]
  else if year = 2021 then [12]
  else []

/-- `is_half_points_race(year, round_number)` from `get_driver_profile`. -/
def is_half_points_race (year : Int) (round_number : Int) : Bool :=
  (half_points_races year).contains round_number

/-- Python truthiness of a nullable int column (`if ... and position:`):
`None` and `0` are falsy. -/
def truthy : Option Int → Bool
  | none => false
  | some n => decide (n ≠ 0)

/-- The `session_type == 'Race'` branch of the per-row points loop in
`get_complete_standings` (lines 2196–2205): base table lookup, then the
fastest-lap bonus when the year is eligible, the flag is set, the
position is truthy, and either `year <= 1959` or `position <= 10`. -/
def standings_race_points (year : Int) (position : Option Int) (fastest_lap : Bool) : ℚ :=
  let race_points := dictGet (get_points_system year) position
  if has_fastest_lap_point year && fastest_lap && truthy position then
    if decide (year ≤ 1959) || decide (position.getD 0 ≤ 10) then race_points + 1
    else race_points
  else race_points

/-- The `session_type == 'Sprint Race'` branch of the same loop
(lines 2206–2208): `sprint_points_system.get(position, 0)`. -/
def standings_sprint_points (year : Int) (position : Option Int) : ℚ :=
  dictGet (get_sprint_points_system year) position

/-- Points contributed by one result row to its round accumulator in
`get_complete_standings`; qualifying rows are excluded by the SQL
`WHERE rs.session_type IN ('Race', 'Sprint Race')` and contribute 0. -/
def entry_points (year : Int) (e : ResultRow) : ℚ :=
  match e.sessionKind with
  | .race => standings_race_points year e.position e.fastestLap
  | .sprint => standings_sprint_points year e.position
  | .qualifying => 0

/-- Round metadata from the `races` table query (calendar source),
ordered by `round_number`. -/
structure RaceMeta where
  roundNumber : Int
  eventName : String
  country : String
  hasSprint : Bool
deriving DecidableEq

/-- One per-round accumulator cell of a standings row; `points = none`
embeds the `None` injected for rounds without participation. -/
structure RoundPoints where
  roundNumber : Int
  eventName : String
  country : String
  points : Option ℚ
deriving DecidableEq

/-- The SQL filter `rs.session_type IN ('Race', 'Sprint Race')` of the
driver results query. -/
def isRaceOrSprint (e : ResultRow) : Bool :=
  match e.sessionKind with
  | .race => true
  | .sprint => true
  | .qualifying => false

/-- The rows feeding one cell of `driver_race_data[driver_id].races`:
the filtered result rows of driver `d` at round `r`. -/
def driver_round_entries (entries : List ResultRow) (d r : Int) : List ResultRow :=
  (entries.filter isRaceOrSprint).filter
    (fun e => e.driverId == d && e.roundNumber == r)

/-- One element of `all_race_results` in `get_complete_standings`: the
round cell from `race_map` when the driver has rows for the round
(points initialized to 0 and accumulated with `+=`), else the synthetic
cell with `points = None` built from the calendar row. -/
def round_points_for (year : Int) (entries : List ResultRow) (d : Int)
    (rm : RaceMeta) : RoundPoints :=
  match driver_round_entries entries d rm.roundNumber with
  | [] =>
    { roundNumber := rm.roundNumber, eventName := rm.eventName,
      country := rm.country, points := none }
  | e :: es =>
    { roundNumber := rm.roundNumber, eventName := e.eventName,
      country := e.country,
      points := some ((e :: es).foldl (fun acc x => acc + entry_points year x) 0) }

/-- The `all_race_results` list of `get_complete_standings` (driver
path): one cell per calendar round, in calendar order. -/
def all_race_results (year : Int) (races : List RaceMeta)
    (entries : List ResultRow) (d : Int) : List RoundPoints :=
  races.map (round_points_for year entries d)

/-- Keys of a Python dict in insertion order: first occurrence of each
value, later duplicates dropped (`seen` accumulates the keys so far). -/
def dedupFirstAux (seen : List Int) : List Int → List Int
  | [] => []
  | x :: xs =>
    if seen.contains x then dedupFirstAux seen xs
    else x :: dedupFirstAux (seen ++ [x]) xs

/-- First-occurrence deduplication, the key order of a Python dict. -/
def dedupFirst (l : List Int) : List Int :=
  dedupFirstAux [] l

/-- The rounds present in `driver_race_data[d].races`, in dict insertion
order. -/
def driver_rounds (entries : List ResultRow) (d : Int) : List Int :=
  dedupFirst (((entries.filter isRaceOrSprint).filter
    (fun e => e.driverId == d)).map (fun e => e.roundNumber))

/-- `total_points = sum(race.points for race in data.races)` in the
driver path: summed over participated rounds only. -/
def driver_total_points (year : Int) (entries : List ResultRow) (d : Int) : ℚ :=
  ((driver_rounds entries d).map (fun r =>
    (driver_round_entries entries d r).foldl
      (fun acc e => acc + entry_points year e) 0)).sum

/-- Display metadata of one driver as selected by the
`driver_latest_team` query (Race sessions only, inner join on teams). -/
structure DriverMeta where
  abbreviation : String
  driver_name : String
  team_name : String
  team_logo : Option String
  team_color : Option String
deriving DecidableEq

/-- One element of `driver_results` in the season report. -/
structure DriverRow where
  driverName : String
  driverAbbreviation : String
  teamName : String
  teamLogo : Option String
  teamColor : Option String
  totalPoints : ℚ
  raceResults : List RoundPoints
deriving DecidableEq

/-- The message of the `KeyError` raised by `data[info][driver_name]`
when the metadata dict defaulted to empty. -/
def key_error_driver_name : String :=
  "KeyError: driver_name"

/-- Building one driver standings row: `info` is
`drivers.get(driver_id, ...)` defaulted to the empty dict (`none`); the
source reads `driver_name`, `abbreviation` and `team_name` with bracket
access, which raises `KeyError` on the empty dict, while `team_logo`
and `team_color` use `.get` and tolerate absence. -/
def build_driver_row (year : Int) (races : List RaceMeta)
    (entries : List ResultRow) (info : Option DriverMeta) (d : Int) :
    Except String DriverRow :=
  match info with
  | none => .error key_error_driver_name
  | some m =>
    .ok { driverName := m.driver_name
          driverAbbreviation := m.abbreviation
          teamName := m.team_name
          teamLogo := m.team_logo
          teamColor := m.team_color
          totalPoints := driver_total_points year entries d
          raceResults := all_race_results year races entries d }

/-- The Race branch of the per-result loop in `get_driver_profile`
(guarded by `session_type == Race and position`): base table lookup,
halving for a curated half-points (year, round), then the fastest-lap
bonus added after the halving. -/
def profile_race_points (year round_number : Int) (position : Option Int)
    (fastest_lap : Bool) : ℚ :=
  if truthy position then
    let race_points := dictGet (get_points_system year) position
    let race_points :=
      if is_half_points_race year round_number then race_points / 2
      else race_points
    if has_fastest_lap_point year && fastest_lap && truthy position then
      if decide (year ≤ 1959) || decide (position.getD 0 ≤ 10) then race_points + 1
      else race_points
    else race_points
  else 0

/-- The SQL filter `rs.session_type = 'Race'`. -/
def isRace (e : ResultRow) : Bool :=
  match e.sessionKind with
  | .race => true
  | _ => false

/-- The CASE expression of the championship-position CTE in
`get_driver_profile`: positions 1..10 receive the bound parameters
`points_system.get(i, 0)`, any other or NULL position receives 0. -/
def cte_case_points (year : Int) (position : Option Int) : ℚ :=
  match position with
  | none => 0
  | some p =>
    if p = 1 then dictGet (get_points_system year) (some 1)
    else if p = 2 then dictGet (get_points_system year) (some 2)
    else if p = 3 then dictGet (get_points_system year) (some 3)
    else if p = 4 then dictGet (get_points_system year) (some 4)
    else if p = 5 then dictGet (get_points_system year) (some 5)
    else if p = 6 then dictGet (get_points_system year) (some 6)
    else if p = 7 then dictGet (get_points_system year) (some 7)
    else if p = 8 then dictGet (get_points_system year) (some 8)
    else if p = 9 then dictGet (get_points_system year) (some 9)
    else if p = 10 then dictGet (get_points_system year) (some 10)
    else 0

/-- One driver total of the `driver_points` CTE: the CASE points summed
over the season Race rows of that driver. -/
def cte_driver_total (year : Int) (rows : List ResultRow) (d : Int) : ℚ :=
  (((rows.filter isRace).filter (fun e => e.driverId == d)).map
    (fun e => cte_case_points year e.position)).sum

/-- The `driver_points` CTE: one (driverId, total) per driver having at
least one Race row that season. -/
def cte_totals (year : Int) (rows : List ResultRow) : List (Int × ℚ) :=
  (dedupFirst ((rows.filter isRace).map (fun e => e.driverId))).map
    (fun d => (d, cte_driver_total year rows d))

/-- The scalar subquery
`SELECT total_points FROM driver_points WHERE driver_id = ?`. -/
def lookup_total (totals : List (Int × ℚ)) (d : Int) : Option ℚ :=
  (totals.find? (fun kv => kv.1 == d)).map (fun kv => kv.2)

/-- The championship-position query: `COUNT(*) + 1` over drivers whose
total strictly exceeds the queried driver total; when the driver is
absent the NULL comparison selects no rows and the query returns 1. -/
def championship_position (totals : List (Int × ℚ)) (d : Int) : Nat :=
  match lookup_total totals d with
  | none => 1
  | some td => (totals.filter (fun kv => decide (td < kv.2))).length + 1

/-- One group of the constructor results query (grouped by team, round
and session type); `items` embeds the GROUP_CONCAT string after the
comma/colon splits: one (position-text, fastest-flag-text) pair per
result row with a non-NULL position. -/
structure TeamGroup where
  teamId : Int
  roundNumber : Int
  eventName : String
  country : String
  kind : SessionKind
  items : List (String × String)
deriving DecidableEq

/-- Decimal digit accumulation over the characters of a position text;
any non-digit character fails the parse, and an empty digit run yields
no value. -/
def parse_nat_digits : List Char → Option Nat → Option Nat
  | [], acc => acc
  | c :: cs, acc =>
    if c.isDigit then
      parse_nat_digits cs (some ((acc.getD 0) * 10 + (c.toNat - 48)))
    else none

/-- The parse of a position text inside the `try`, modelling Python
`int(pos_str)` (optional sign then decimal digits); `none` embeds the
exception swallowed by `except: pass`. -/
def parse_pos (s : String) : Option Int :=
  match s.data with
  | '-' :: cs => (parse_nat_digits cs none).map (fun n => -(n : Int))
  | cs => (parse_nat_digits cs none).map (fun n => (n : Int))

/-- One iteration of the constructor per-group loop: a malformed
position text leaves the accumulator unchanged (`except: pass`); a Race
item adds its table points and may set the single `team_had_fastest`
boolean; a Sprint item adds sprint table points. -/
def team_group_step (year : Int) (kind : SessionKind) (acc : ℚ × Bool)
    (item : String × String) : ℚ × Bool :=
  match parse_pos item.1 with
  | none => acc
  | some pos =>
    match kind with
    | .race =>
      (acc.1 + dictGet (get_points_system year) (some pos),
       acc.2 || (has_fastest_lap_point year && decide (item.2 = "1") &&
         (decide (year ≤ 1959) || decide (pos ≤ 10))))
    | .sprint =>
      (acc.1 + dictGet (get_sprint_points_system year) (some pos), acc.2)
    | .qualifying => acc

/-- The points of one constructor group: fold the items from
`(0, False)`, then add the single fastest-lap point when the boolean
ended up set. -/
def team_group_points (year : Int) (kind : SessionKind)
    (items : List (String × String)) : ℚ :=
  let r := items.foldl (team_group_step year kind) (0, false)
  if r.2 then r.1 + 1 else r.1

/-- The base (bonus-free) table points of one group item, 0 when the
position text does not parse. -/
def team_item_base (year : Int) (kind : SessionKind)
    (item : String × String) : ℚ :=
  match parse_pos item.1 with
  | none => 0
  | some pos =>
    match kind with
    | .race => dictGet (get_points_system year) (some pos)
    | .sprint => dictGet (get_sprint_points_system year) (some pos)
    | .qualifying => 0

/-- Whether one Race group item can set `team_had_fastest`: the
position text parses, the year is eligible, the flag text is `1`, and
either the year is at most 1959 or the position is at most 10. -/
def team_item_fl_eligible (year : Int) (item : String × String) : Bool :=
  match parse_pos item.1 with
  | none => false
  | some pos =>
    has_fastest_lap_point year && decide (item.2 = "1") &&
      (decide (year ≤ 1959) || decide (pos ≤ 10))

/-- The groups of team `t`. -/
def team_groups (groups : List TeamGroup) (t : Int) : List TeamGroup :=
  groups.filter (fun g => g.teamId == t)

/-- The accumulated points of team `t` at round `r`: the Race group and
the Sprint group of that round both feed `+=` on the same cell. -/
def team_round_points (year : Int) (groups : List TeamGroup) (t r : Int) : ℚ :=
  (((team_groups groups t).filter (fun g => g.roundNumber == r)).map
    (fun g => team_group_points year g.kind g.items)).sum

/-- The `raceResults` of one constructor row: the source emits
`data.races` directly — only rounds having at least one group, in dict
insertion order, with no calendar fill and no `None` cells. -/
def constructor_race_results (year : Int) (groups : List TeamGroup)
    (t : Int) : List RoundPoints :=
  (dedupFirst ((team_groups groups t).map (fun g => g.roundNumber))).map
    (fun r =>
      match (team_groups groups t).find? (fun g => g.roundNumber == r) with
      | some g =>
        { roundNumber := r, eventName := g.eventName, country := g.country,
          points := some (team_round_points year groups t r) }
      | none =>
        { roundNumber := r, eventName := "", country := "",
          points := some (team_round_points year groups t r) })

/-- Display metadata of one team from the `teams` table. -/
structure TeamMeta where
  logo_url : Option String
  color : Option String
deriving DecidableEq

/-- One element of `constructor_results` in the season report. -/
structure ConstructorRow where
  teamName : String
  teamLogo : Option String
  teamColor : Option String
  totalPoints : ℚ
  raceResults : List RoundPoints
deriving DecidableEq

/-- Building one constructor standings row: metadata read with
`team_data.get(team_id, ...).get(...)`, so a missing record yields
`None` fields and never raises. -/
def build_constructor_row (year : Int) (groups : List TeamGroup)
    (teamName : String) (info : Option TeamMeta) (t : Int) : ConstructorRow :=
  { teamName := teamName
    teamLogo := info.bind (fun m => m.logo_url)
    teamColor := info.bind (fun m => m.color)
    totalPoints := ((dedupFirst ((team_groups groups t).map
      (fun g => g.roundNumber))).map (fun r => team_round_points year groups t r)).sum
    raceResults := constructor_race_results year groups t }

/-- The race points table as the specification words it, by year ranges
(claim C3); written from the spec to be compared with the source
function `get_points_system`. -/
def spec_points_table (year : Int) : List (Int × ℚ) :=
  if 2010 ≤ year then
    [(1, 25), (2, 18), (3, 15), (4, 12), (5, 10), (6, 8), (7, 6), (8, 4), (9, 2), (10, 1)]
  else if 2003 ≤ year ∧ year ≤ 2009 then
    [(1, 10), (2, 8), (3, 6), (4, 5), (5, 4), (6, 3), (7, 2), (8, 1)]
  else if 1991 ≤ year ∧ year ≤ 2002 then
    [(1, 10), (2, 6), (3, 4), (4, 3), (5, 2), (6, 1)]
  else if 1961 ≤ year ∧ year ≤ 1990 then
    [(1, 9), (2, 6), (3, 4), (4, 3), (5, 2), (6, 1)]
  else if year = 1960 then
    [(1, 8), (2, 6), (3, 4), (4, 3), (5, 2), (6, 1)]
  else
    [(1, 8), (2, 6), (3, 4), (4, 3), (5, 2)]

/-- A two-round calendar used by the concrete instances below. -/
def sampleCalendar : List RaceMeta :=
  [{ roundNumber := 1, eventName := "A", country := "B", hasSprint := false },
   { roundNumber := 2, eventName := "C", country := "D", hasSprint := false }]

/-- Driver 1 raced only round 1 of the sample calendar, finishing 20th. -/
def sampleEntries : List ResultRow :=
  [{ driverId := 1, teamId := 1, roundNumber := 1, eventName := "A",
     country := "B", sessionKind := .race, position := some 20,
     fastestLap := false }]

/-- Driver 7 has only a Sprint row, so the Race-only metadata query
never lists driver 7. -/
def sampleSprintEntries : List ResultRow :=
  [{ driverId := 7, teamId := 1, roundNumber := 1, eventName := "A",
     country := "B", sessionKind := .sprint, position := some 2,
     fastestLap := false }]

/-- Team 1 has a Race group only at round 1 of the two-round sample
calendar. -/
def sampleGroups : List TeamGroup :=
  [{ teamId := 1, roundNumber := 1, eventName := "A", country := "B",
     kind := .race, items := [("1", "0"), ("2", "1")] }]

/-- The null round-2 cell emitted for driver 1 over the sample data. -/
def sampleNullCell : RoundPoints :=
  { roundNumber := 2, eventName := "C", country := "D", points := none }

/-- Team 9 has a single Race group, at round 1 only of the two-round
sample calendar, with one well-formed P5 row. -/
def sampleSoloGroups : List TeamGroup :=
  [{ teamId := 9, roundNumber := 1, eventName := "A", country := "B",
     kind := .race, items := [("5", "0")] }]

/-- Rows giving drivers 1 and 2 equal season totals and driver 3 a
larger one. -/
def sampleChampRows : List ResultRow :=
  [{ driverId := 1, teamId := 1, roundNumber := 1, eventName := "A",
     country := "B", sessionKind := .race, position := some 3,
     fastestLap := false },
   { driverId := 2, teamId := 2, roundNumber := 2, eventName := "C",
     country := "D", sessionKind := .race, position := some 3,
     fastestLap := false },
   { driverId := 3, teamId := 3, roundNumber := 1, eventName := "A",
     country := "B", sessionKind := .race, position := some 1,
     fastestLap := false },
   { driverId := 3, teamId := 3, roundNumber := 2, eventName := "C",
     country := "D", sessionKind := .race, position := some 1,
     fastestLap := false }]

/-- A key with no matching entry in a points dict looks up to 0. -/
theorem dictGet_eq_zero_of_find_none (d : List (Int × ℚ)) (p : Int)
    (h : d.find? (fun kv => kv.1 == p) = none) : dictGet d (some p) = 0 := by
  show dictLookup d p = 0
  induction d with
  | nil => rfl
  | cons kv rest ih =>
    rw [List.find?_cons] at h
    split at h
    · exact absurd h (by simp)
    · rename_i hfalse
      simp only [dictLookup]
      rw [if_neg (by simpa using hfalse), ih h]

/-- The fastest-lap if-ladder of both points loops, rewritten as a
single additive bonus. -/
theorem bonus_ite (year n : Int) (fl : Bool) (hn : 1 ≤ n) (base : ℚ) :
    (if has_fastest_lap_point year && fl && truthy (some n) then
       if decide (year ≤ 1959) || decide (n ≤ 10) then base + 1 else base
     else base) =
    base + (if (year ≤ 1959 ∨ 2019 ≤ year) ∧ fl = true ∧ (year ≤ 1959 ∨ n ≤ 10)
      then 1 else 0) := by
  have ht : truthy (some n) = true := by
    simp only [truthy, decide_eq_true_eq]
    omega
  rw [ht]
  cases fl with
  | false => simp
  | true =>
    simp only [has_fastest_lap_point, Bool.and_true]
    by_cases h1 : year ≤ 1959
    · simp [h1]
    · by_cases h2 : 2019 ≤ year
      · by_cases h3 : n ≤ 10 <;> simp [h1, h2, h3]
      · simp [h1, h2]

/-- The Race branch of the standings per-row loop, as base points plus
an explicit fastest-lap bonus. -/
theorem standings_race_points_eq (year n : Int) (fl : Bool) (hn : 1 ≤ n) :
    standings_race_points year (some n) fl =
      dictGet (get_points_system year) (some n) +
        (if (year ≤ 1959 ∨ 2019 ≤ year) ∧ fl = true ∧ (year ≤ 1959 ∨ n ≤ 10)
          then 1 else 0) := by
  unfold standings_race_points
  simp only [Option.getD_some]
  exact bonus_ite year n fl hn _

/-- Folding the constructor Race-group loop computes the base-points
sum and the disjunction of the per-item fastest-lap eligibility. -/
theorem team_group_foldl_race (year : Int) (items : List (String × String))
    (a : ℚ) (b : Bool) :
    items.foldl (team_group_step year .race) (a, b) =
      (a + (items.map (team_item_base year .race)).sum,
       b || items.any (team_item_fl_eligible year)) := by
  induction items generalizing a b with
  | nil => simp
  | cons it its ih =>
    simp only [List.foldl_cons, List.map_cons, List.sum_cons, List.any_cons]
    rw [ih]
    unfold team_group_step team_item_base team_item_fl_eligible
    cases h : parse_pos it.1 with
    | none => simp [h]
    | some pos => simp [h, add_assoc, Bool.or_assoc]

/-- Folding the constructor Sprint-group loop computes the base-points
sum and never sets the fastest-lap boolean. -/
theorem team_group_foldl_sprint (year : Int) (items : List (String × String))
    (a : ℚ) (b : Bool) :
    items.foldl (team_group_step year .sprint) (a, b) =
      (a + (items.map (team_item_base year .sprint)).sum, b) := by
  induction items generalizing a b with
  | nil => simp
  | cons it its ih =>
    simp only [List.foldl_cons, List.map_cons, List.sum_cons]
    rw [ih]
    unfold team_group_step team_item_base
    cases h : parse_pos it.1 with
    | none => simp [h]
    | some pos => simp [h, add_assoc]

/-- The round number of an emitted driver round cell is the calendar
round number, in both match branches. -/
theorem round_points_for_roundNumber (year : Int) (entries : List ResultRow)
    (d : Int) (rm : RaceMeta) :
    (round_points_for year entries d rm).roundNumber = rm.roundNumber := by
  unfold round_points_for
  split <;> rfl

/-- C3: the rules lookup is total over all integer years and never
fails: it returns the year-correct race points table per the historical
bands, falls back to the 1950s table below the known range, and a
position absent from the table yields 0 rather than an error. -/
theorem rules_lookup_year_correct_total (year : Int) :
    get_points_system year = spec_points_table year ∧
    dictGet (get_points_system year) none = 0 ∧
    ∀ p : Int, (get_points_system year).find? (fun kv => kv.1 == p) = none →
      dictGet (get_points_system year) (some p) = 0 := by
  refine ⟨?_, rfl, fun p h => dictGet_eq_zero_of_find_none _ p h⟩
  unfold get_points_system spec_points_table
  split_ifs <;> first | rfl | omega

/-- Witness for C3 at year 1975 and the absent position 11. -/
theorem rules_lookup_year_correct_total_witness :
    get_points_system 1975 = spec_points_table 1975 ∧
    dictGet (get_points_system 1975) (some 11) = 0 :=
  ⟨(rules_lookup_year_correct_total 1975).1,
   (rules_lookup_year_correct_total 1975).2.2 11 (by decide)⟩

/-- C4: in the standings Race branch the +1 fastest-lap bonus is added
iff the year is at most 1959 or at least 2019, the flag is set and the
position is non-null, with the top-10 cap applying only to the modern
era; a 1955 race at position 7 with fastest lap scores 1, and a 2023
win with fastest lap scores 26. -/
theorem race_fastest_lap_bonus (year n : Int) (fl : Bool) (hn : 1 ≤ n) :
    (standings_race_points year (some n) fl =
      dictGet (get_points_system year) (some n) +
        (if (year ≤ 1959 ∨ 2019 ≤ year) ∧ fl = true ∧ (year ≤ 1959 ∨ n ≤ 10)
          then 1 else 0)) ∧
    standings_race_points year none fl = 0 ∧
    standings_race_points 1955 (some 7) true = 1 ∧
    standings_race_points 2023 (some 1) true = 26 := by
  refine ⟨standings_race_points_eq year n fl hn, ?_,
    by norm_num [standings_race_points, get_points_system, dictGet,
      dictLookup, truthy, has_fastest_lap_point],
    by norm_num [standings_race_points, get_points_system, dictGet,
      dictLookup, truthy, has_fastest_lap_point]⟩
  unfold standings_race_points
  simp [truthy, dictGet]

/-- Witness for C4 at the 2023 win with fastest lap. -/
theorem race_fastest_lap_bonus_witness :
    standings_race_points 2023 (some 1) true =
      dictGet (get_points_system 2023) (some 1) +
        (if ((2023 : Int) ≤ 1959 ∨ (2019 : Int) ≤ 2023) ∧ true = true ∧
            ((2023 : Int) ≤ 1959 ∨ (1 : Int) ≤ 10)
          then 1 else 0) :=
  (race_fastest_lap_bonus 2023 1 true (by norm_num)).1

/-- C5: a Sprint entry scores 0 before 2021; from 2021 onward it scores
per the sprint table, with null or out-of-table positions scoring 0. -/
theorem sprint_points_gating (year : Int) (p : Option Int) :
    (year < 2021 → standings_sprint_points year p = 0) ∧
    (2021 ≤ year → standings_sprint_points year p =
      match p with
      | none => 0
      | some pos =>
        if 1 = pos then 8 else if 2 = pos then 7 else if 3 = pos then 6
        else if 4 = pos then 5 else if 5 = pos then 4 else if 6 = pos then 3
        else if 7 = pos then 2 else if 8 = pos then 1 else 0) := by
  constructor
  · intro h
    have he : get_sprint_points_system year = [] := by
      unfold get_sprint_points_system
      rw [if_neg (by omega)]
    cases p <;> simp [standings_sprint_points, he, dictGet, dictLookup]
  · intro h
    have he : get_sprint_points_system year =
        [(1, 8), (2, 7), (3, 6), (4, 5), (5, 4), (6, 3), (7, 2), (8, 1)] := by
      unfold get_sprint_points_system
      rw [if_pos (by omega)]
    cases p <;> simp [standings_sprint_points, he, dictGet, dictLookup]

/-- Witness for C5: a 2020 sprint at position 1 scores 0. -/
theorem sprint_points_gating_witness :
    standings_sprint_points 2020 (some 1) = 0 :=
  (sprint_points_gating 2020 (some 1)).1 (by norm_num)

/-- C2 counterexample: the complete-standings points loop never applies
the half-points exception — the 2021 round-12 winner is credited the
full 25 there, not 12.5. -/
theorem standings_half_points_not_applied :
    is_half_points_race 2021 12 = true ∧
    entry_points 2021
      { driverId := 44, teamId := 1, roundNumber := 12, eventName := "E",
        country := "F", sessionKind := .race, position := some 1,
        fastestLap := false } = 25 ∧
    (25 : ℚ) ≠ dictGet (get_points_system 2021) (some 1) / 2 := by
  refine ⟨by decide, ?_, ?_⟩ <;>
    norm_num [entry_points, standings_race_points, get_points_system,
      dictGet, dictLookup, truthy, has_fastest_lap_point]

/-- C2 amended: the halving is applied in the driver-profile season
points computation — half the race-table value, fastest-lap bonus added
after the halving — while the complete-standings computation uses the
full table value with the same bonus rule. -/
theorem profile_half_points_applied (year round n : Int) (fl : Bool)
    (hhalf : is_half_points_race year round = true) (hn : 1 ≤ n) :
    profile_race_points year round (some n) fl =
      dictGet (get_points_system year) (some n) / 2 +
        (if (year ≤ 1959 ∨ 2019 ≤ year) ∧ fl = true ∧ (year ≤ 1959 ∨ n ≤ 10)
          then 1 else 0) ∧
    standings_race_points year (some n) fl =
      dictGet (get_points_system year) (some n) +
        (if (year ≤ 1959 ∨ 2019 ≤ year) ∧ fl = true ∧ (year ≤ 1959 ∨ n ≤ 10)
          then 1 else 0) := by
  refine ⟨?_, standings_race_points_eq year n fl hn⟩
  have ht : truthy (some n) = true := by
    simp only [truthy, decide_eq_true_eq]
    omega
  have hb := bonus_ite year n fl hn (dictGet (get_points_system year) (some n) / 2)
  rw [ht] at hb
  unfold profile_race_points
  rw [ht, if_pos rfl, hhalf]
  simpa using hb

/-- Witness for C2 amended: the 2021 round-12 win with fastest lap is
credited 12.5 + 1 in the driver profile. -/
theorem profile_half_points_applied_witness :
    profile_race_points 2021 12 (some 1) true =
      dictGet (get_points_system 2021) (some 1) / 2 +
        (if ((2021 : Int) ≤ 1959 ∨ (2019 : Int) ≤ 2021) ∧ true = true ∧
            ((2021 : Int) ≤ 1959 ∨ (1 : Int) ≤ 10)
          then 1 else 0) :=
  (profile_half_points_applied 2021 12 1 true (by decide) (by norm_num)).1

/-- C1 amended: every driver standings row has exactly one round cell
per calendar round, in calendar (round-ascending) order; constructor
rows instead list only the rounds the team has result groups for, as
the counterexample shows. -/
theorem driver_race_results_cover_calendar (year : Int)
    (races : List RaceMeta) (entries : List ResultRow) (d : Int) :
    (all_race_results year races entries d).length = races.length ∧
    (all_race_results year races entries d).map (fun rp => rp.roundNumber) =
      races.map (fun rm => rm.roundNumber) := by
  constructor
  · simp [all_race_results]
  · induction races with
    | nil => rfl
    | cons rm rest ih =>
      simp only [all_race_results, List.map_cons] at ih ⊢
      rw [round_points_for_roundNumber, ih]

/-- C1 counterexample: over the two-round sample calendar, the driver
row carries two cells but the constructor row of a team that raced only
round 1 carries a single cell — its length differs from the calendar
round count. -/
theorem constructor_row_shorter_than_calendar :
    sampleCalendar.length = 2 ∧
    (all_race_results 2023 sampleCalendar sampleEntries 1).length = 2 ∧
    (build_constructor_row 2023 sampleGroups ("Alpha") none 1).raceResults.length = 1 :=
  ⟨rfl, rfl, rfl⟩

/-- C9 amended: in a driver standings row, a round cell is null exactly
when the driver has no Race or Sprint result row for that round, and
otherwise carries the sum of the row points accumulated from 0 — null
and 0 are never conflated; constructor rows instead omit zero-entry
rounds from `raceResults` entirely, as the counterexample shows. -/
theorem round_points_null_iff_no_entries (year : Int)
    (races : List RaceMeta) (entries : List ResultRow) (d : Int) :
    ∀ rp ∈ all_race_results year races entries d,
      (rp.points = none ↔ driver_round_entries entries d rp.roundNumber = []) ∧
      (∀ q : ℚ, rp.points = some q →
        q = (driver_round_entries entries d rp.roundNumber).foldl
          (fun acc e => acc + entry_points year e) 0) := by
  intro rp hrp
  rw [all_race_results, List.mem_map] at hrp
  obtain ⟨rm, -, rfl⟩ := hrp
  rw [round_points_for_roundNumber]
  unfold round_points_for
  cases h : driver_round_entries entries d rm.roundNumber with
  | nil => simp
  | cons e es =>
    constructor
    · simp
    · intro q hq
      simpa using hq.symm

/-- Witness for C9 at the sample data: the round-2 cell of driver 1 is
null and there are no round-2 rows. -/
theorem round_points_null_iff_no_entries_witness :
    (sampleNullCell.points = none ↔
      driver_round_entries sampleEntries 1 sampleNullCell.roundNumber = []) ∧
    (∀ q : ℚ, sampleNullCell.points = some q →
      q = (driver_round_entries sampleEntries 1 sampleNullCell.roundNumber).foldl
        (fun acc e => acc + entry_points 2023 e) 0) :=
  round_points_null_iff_no_entries 2023 sampleCalendar sampleEntries 1
    sampleNullCell
    (by
      rw [all_race_results]
      refine List.mem_map.2
        ⟨{ roundNumber := 2, eventName := "C", country := "D",
           hasSprint := false }, ?_, rfl⟩
      simp [sampleCalendar])

/-- C9 counterexample: for a constructor entity, a calendar round with
zero result groups (round 2 of the sample calendar for team 9) gets no
cell in `raceResults` at all — in particular no cell with a null points
value — and the only emitted cell is non-null; so for constructor rows
a zero-entry round does not yield `points = null`. -/
theorem constructor_zero_entry_round_has_no_cell :
    sampleCalendar.map (fun rm => rm.roundNumber) = [1, 2] ∧
    (team_groups sampleSoloGroups 9).filter (fun g => g.roundNumber == 2) = [] ∧
    (build_constructor_row 2023 sampleSoloGroups ("Beta") none 9).raceResults.map
      (fun rp => rp.roundNumber) = [1] ∧
    (build_constructor_row 2023 sampleSoloGroups ("Beta") none 9).raceResults.map
      (fun rp => rp.points.isSome) = [true] :=
  ⟨rfl, rfl, rfl, rfl⟩

/-- C6: a driver present in the season results but absent from the
Race-only display-metadata map makes the row construction raise
`KeyError` — the season computation aborts instead of emitting the row
with empty display fields; the constructor path, which uses `.get`
throughout, tolerates the missing record. -/
theorem missing_driver_metadata_aborts :
    build_driver_row 2023 sampleCalendar sampleSprintEntries none 7 =
      Except.error key_error_driver_name ∧
    (build_constructor_row 2023 sampleGroups ("Alpha") none 1).teamLogo = none ∧
    (build_constructor_row 2023 sampleGroups ("Alpha") none 1).teamColor = none :=
  ⟨rfl, rfl, rfl⟩

/-- C7 counterexample: a malformed position text in a constructor group
is swallowed by the bare `except: pass` — the group total is exactly the
total of the remaining well-formed rows and no error propagates. -/
theorem malformed_position_not_propagated :
    parse_pos ("abc") = none ∧
    team_group_points 2023 .race [("abc", "1"), ("2", "0")] = 18 ∧
    team_group_points 2023 .race [("2", "0")] = 18 := by
  have s1 : team_group_step 2023 .race (0, false) ("abc", "1") = (0, false) := by
    unfold team_group_step
    rw [show parse_pos ("abc") = none from by decide]
  have s2 : team_group_step 2023 .race (0, false) ("2", "0") = (18, false) := by
    unfold team_group_step
    rw [show parse_pos ("2") = some 2 from by decide,
      show decide (("0" : String) = "1") = false from by decide]
    norm_num [get_points_system, dictGet, dictLookup, has_fastest_lap_point]
  refine ⟨by decide, ?_, ?_⟩
  · unfold team_group_points
    rw [List.foldl_cons, List.foldl_cons, List.foldl_nil, s1, s2]
    rfl
  · unfold team_group_points
    rw [List.foldl_cons, List.foldl_nil, s2]
    rfl

/-- C7 amended: a result row whose position encoding does not parse is
silently skipped by the constructor grouping loop; the remaining rows
still produce the group total and the season computation never aborts
on it. -/
theorem malformed_position_skipped (year : Int) (kind : SessionKind)
    (pre post : List (String × String)) (item : String × String)
    (hbad : parse_pos item.1 = none) :
    team_group_points year kind (pre ++ item :: post) =
      team_group_points year kind (pre ++ post) := by
  have hstep : ∀ acc : ℚ × Bool, team_group_step year kind acc item = acc := by
    intro acc
    unfold team_group_step
    rw [hbad]
  unfold team_group_points
  rw [List.foldl_append, List.foldl_append, List.foldl_cons, hstep]

/-- Witness for C7 amended at a concrete malformed middle row. -/
theorem malformed_position_skipped_witness :
    team_group_points 2023 .race
      ([("1", "0")] ++ ("abc", "1") :: [("2", "0")]) =
      team_group_points 2023 .race ([("1", "0")] ++ [("2", "0")]) :=
  malformed_position_skipped 2023 .race [("1", "0")] [("2", "0")]
    ("abc", "1") (by decide)

/-- C10: in a constructor Race group the fastest-lap bonus is gated by
a single boolean, so it contributes exactly 1 when any eligible flagged
item exists and 0 otherwise — never one point per flagged driver — and
a Sprint group never contributes a bonus. -/
theorem team_fastest_lap_bonus_single (year : Int)
    (items : List (String × String)) :
    team_group_points year .race items =
      (items.map (team_item_base year .race)).sum +
        (if items.any (team_item_fl_eligible year) = true then 1 else 0) ∧
    team_group_points year .sprint items =
      (items.map (team_item_base year .sprint)).sum := by
  constructor
  · unfold team_group_points
    rw [team_group_foldl_race]
    simp only [Bool.false_or, zero_add]
    split_ifs <;> simp
  · unfold team_group_points
    rw [team_group_foldl_sprint]
    simp

/-- C8: the championship position query returns 1 plus the number of
drivers whose CTE season total strictly exceeds the queried driver
total, so two drivers with equal totals receive the same rank
(competition ranking). -/
theorem championship_position_competition_rank (year : Int)
    (rows : List ResultRow) (d1 d2 : Int) (t : ℚ)
    (h1 : lookup_total (cte_totals year rows) d1 = some t)
    (h2 : lookup_total (cte_totals year rows) d2 = some t) :
    championship_position (cte_totals year rows) d1 =
      1 + ((cte_totals year rows).filter
        (fun kv => decide (t < kv.2))).length ∧
    championship_position (cte_totals year rows) d1 =
      championship_position (cte_totals year rows) d2 := by
  unfold championship_position
  rw [h1, h2]
  exact ⟨Nat.add_comm _ 1, rfl⟩

/-- Witness for C8: drivers 1 and 2 of the sample rows both total 15
and both rank second behind driver 3. -/
theorem championship_position_competition_rank_witness :
    championship_position (cte_totals 2023 sampleChampRows) 1 =
      1 + ((cte_totals 2023 sampleChampRows).filter
        (fun kv => decide ((15 : ℚ) < kv.2))).length ∧
    championship_position (cte_totals 2023 sampleChampRows) 1 =
      championship_position (cte_totals 2023 sampleChampRows) 2 :=
  championship_position_competition_rank 2023 sampleChampRows 1 2 15
    (by
      have hc : cte_totals 2023 sampleChampRows = [(1, 15), (2, 15), (3, 50)] := by
        norm_num [cte_totals, cte_driver_total, cte_case_points, dedupFirst,
          dedupFirstAux, sampleChampRows, isRace, get_points_system,
          dictGet, dictLookup]
      rw [hc]
      rfl)
    (by
      have hc : cte_totals 2023 sampleChampRows = [(1, 15), (2, 15), (3, 50)] := by
        norm_num [cte_totals, cte_driver_total, cte_case_points, dedupFirst,
          dedupFirstAux, sampleChampRows, isRace, get_points_system,
          dictGet, dictLookup]
      rw [hc]
      rfl)

end F1

